import Mathlib

/-!
Shallow embedding of the cxl-scheduler policy engine.

Source files embedded here:
* `src/ebpf/cxl_pmu_minimal.bpf.c` — the minimal vtime scheduler
  (`vtime_before`, `cxl_enqueue`, `cxl_running`, `cxl_stopping`).
* `src/ebpf/cxl_pmu.bpf.c` — the PMU/DAMON scheduler
  (`classify_io_pattern`, `update_damon_data`, `update_cxl_pmu_metrics`,
  `calculate_task_priority`, and its empty `cxl_enqueue`).

Conventions: `u64` values in the virtual-time engine are modelled as `Nat`
with explicit wraparound (`% U64`, helper `u64sub`), because the source
relies on twos-complement wraparound there (`vtime_before` compares via a
signed cast of an unsigned difference).  The DAMON / telemetry / priority
counters are modelled as plain `Nat`: those counters only grow by bounded
heuristic increments and no claim depends on their overflow behaviour.
-/

/-- Modulus of a 64-bit machine word, `2 ^ 64`. -/
def U64 : Nat := 18446744073709551616

/-- Magnitude threshold at which a `u64` reinterpreted as `s64` is negative,
`2 ^ 63`. -/
def U63 : Nat := 9223372036854775808

/-- Wrapping 64-bit subtraction `a - b` on `u64` operands. -/
def u64sub (a b : Nat) : Nat := (a + U64 - b % U64) % U64

/-- From `cxl_pmu_minimal.bpf.c`: `vtime_before(a, b)` is `(s64)(a - b) < 0`. -/
def vtime_before (a b : Nat) : Bool := decide (U63 ≤ u64sub a b)

/-- `SCX_SLICE_DFL`, the default 20 ms slice in nanoseconds. -/
def SCX_SLICE_DFL : Nat := 20000000

/-- `FALLBACK_DSQ_ID` from both scheduler variants. -/
def FALLBACK_DSQ_ID : Nat := 0

/-- `MOE_VECTORDB_THRESHOLD` from `cxl_pmu.bpf.c`. -/
def MOE_VECTORDB_THRESHOLD : Nat := 80

/-- `BANDWIDTH_THRESHOLD` from `cxl_pmu.bpf.c`. -/
def BANDWIDTH_THRESHOLD : Nat := 70

/-- Task context of `cxl_pmu_minimal.bpf.c` (`struct task_ctx`). -/
structure TaskCtxMin where
  is_vectordb : Bool
  is_kworker : Bool
deriving DecidableEq

/-- From `cxl_pmu_minimal.bpf.c` `is_vectordb_task`: first character of the
comm is `v`, `f` or `p`. -/
def is_vectordb_task (c0 : Char) : Bool := c0 == 'v' || c0 == 'f' || c0 == 'p'

/-- From `cxl_pmu_minimal.bpf.c` `is_kworker_task`: comm starts with `kw`. -/
def is_kworker_task (c0 c1 : Char) : Bool := c0 == 'k' && c1 == 'w'

/-- The vtime clamp of `cxl_enqueue` in `cxl_pmu_minimal.bpf.c`:
`if (vtime_before(vtime, global_vtime - slice)) vtime = global_vtime - slice;` -/
def enqueue_clamp (dsq_vtime global_vtime slice : Nat) : Nat :=
  if vtime_before dsq_vtime (u64sub global_vtime slice) then u64sub global_vtime slice
  else dsq_vtime

/-- Virtual time handed to `scx_bpf_dsq_insert_vtime` by `cxl_enqueue` in
`cxl_pmu_minimal.bpf.c`: the clamp, then `-= slice` for VectorDB tasks and
`+= slice` for kworkers, in wrapping `u64` arithmetic. -/
def cxl_enqueue_vtime (t : TaskCtxMin) (dsq_vtime global_vtime slice : Nat) : Nat :=
  let v1 := enqueue_clamp dsq_vtime global_vtime slice
  let v2 := if t.is_vectordb then u64sub v1 slice else v1
  if t.is_kworker then (v2 + slice) % U64 else v2

/-- Dispatch-queue insert operations performed by an enqueue path. -/
inductive InsertAction where
  /-- `scx_bpf_dsq_insert(p, dsq, slice, enq_flags)` -/
  | insert (dsq slice enq_flags : Nat)
  /-- `scx_bpf_dsq_insert_vtime(p, dsq, slice, vtime, enq_flags)` -/
  | insert_vtime (dsq slice vtime enq_flags : Nat)
deriving DecidableEq

/-- From `cxl_pmu_minimal.bpf.c` `cxl_enqueue`: the list of dispatch-queue
inserts it performs.  `tctx` is the result of
`bpf_task_storage_get(..., BPF_LOCAL_STORAGE_GET_F_CREATE)` (`none` models
allocation failure), `c0 c1` the first two characters of `p->comm`. -/
def cxl_enqueue (tctx : Option TaskCtxMin) (c0 c1 : Char)
    (dsq_vtime global_vtime enq_flags : Nat) : List InsertAction :=
  let slice := SCX_SLICE_DFL
  match tctx with
  | none => [InsertAction.insert FALLBACK_DSQ_ID slice enq_flags]
  | some t0 =>
      let t := if !t0.is_vectordb && !t0.is_kworker then
                 { is_vectordb := is_vectordb_task c0,
                   is_kworker := is_kworker_task c0 c1 }
               else t0
      [InsertAction.insert_vtime FALLBACK_DSQ_ID slice
        (cxl_enqueue_vtime t dsq_vtime global_vtime slice) enq_flags]

/-- From `cxl_pmu.bpf.c` `cxl_enqueue` (lines 423-428): the body is empty,
the `scx_bpf_dsq_insert` call is commented out, so no insert is performed. -/
def cxl_enqueue_pmu (enq_flags : Nat) : List InsertAction := []

/-- From `cxl_pmu_minimal.bpf.c` `cxl_running`: the new `global_vtime` after a
task with virtual time `dsq_vtime` starts running. -/
def cxl_running (global_vtime dsq_vtime : Nat) : Nat :=
  if vtime_before global_vtime dsq_vtime then dsq_vtime else global_vtime

/-- `global_vtime` after a sequence of run-start events with the given task
virtual times. -/
def run_start_events (global_vtime : Nat) (l : List Nat) : Nat :=
  List.foldl cxl_running global_vtime l

/-- From `cxl_pmu_minimal.bpf.c` `cxl_stopping`: the new task `dsq_vtime`,
`p->scx.dsq_vtime += (SCX_SLICE_DFL - p->scx.slice) * 100 / p->scx.weight`,
in wrapping `u64` arithmetic (note: division by zero yields 0 both in BPF and
in `Nat`). -/
def cxl_stopping (dsq_vtime slice weight : Nat) : Nat :=
  (dsq_vtime + u64sub SCX_SLICE_DFL slice * 100 % U64 / weight) % U64

/-- `enum io_pattern` from `cxl_pmu.bpf.c`. -/
inductive IoPattern where
  | IO_PATTERN_UNKNOWN
  | IO_PATTERN_READ_HEAVY
  | IO_PATTERN_WRITE_HEAVY
  | IO_PATTERN_MIXED
  | IO_PATTERN_SEQUENTIAL
  | IO_PATTERN_RANDOM
deriving DecidableEq

/-- `enum task_type` from `cxl_pmu.bpf.c`. -/
inductive TaskType where
  | TASK_TYPE_UNKNOWN
  | TASK_TYPE_MOE_VECTORDB
  | TASK_TYPE_KWORKER
  | TASK_TYPE_REGULAR
  | TASK_TYPE_LATENCY_SENSITIVE
  | TASK_TYPE_READ_INTENSIVE
  | TASK_TYPE_WRITE_INTENSIVE
  | TASK_TYPE_BANDWIDTH_TEST
deriving DecidableEq

/-- `struct memory_access_pattern` from `cxl_pmu.bpf.c`. -/
structure MemoryAccessPattern where
  nr_accesses : Nat := 0
  avg_access_size : Nat := 0
  total_access_time : Nat := 0
  last_access_time : Nat := 0
  hot_regions : Nat := 0
  cold_regions : Nat := 0
  locality_score : Nat := 0
  working_set_size : Nat := 0
  read_bytes : Nat := 0
  write_bytes : Nat := 0
  io_pattern : IoPattern := IoPattern.IO_PATTERN_UNKNOWN
deriving DecidableEq

/-- `struct cxl_pmu_metrics` from `cxl_pmu.bpf.c`. -/
structure CxlPmuMetrics where
  memory_bandwidth : Nat := 0
  cache_hit_rate : Nat := 0
  memory_latency : Nat := 0
  cxl_utilization : Nat := 0
  read_bandwidth : Nat := 0
  write_bandwidth : Nat := 0
  last_update_time : Nat := 0
deriving DecidableEq

/-- `struct task_ctx` from `cxl_pmu.bpf.c`. -/
structure TaskCtx where
  type : TaskType := TaskType.TASK_TYPE_UNKNOWN
  mem_pattern : MemoryAccessPattern := {}
  priority_boost : Nat := 0
  cpu_affinity_mask : Nat := 0
  last_scheduled_time : Nat := 0
  consecutive_migrations : Nat := 0
  is_memory_intensive : Bool := false
  needs_promotion : Bool := false
  is_bandwidth_critical : Bool := false
  preferred_dsq : Nat := 0
deriving DecidableEq

/-- `struct cpu_ctx` from `cxl_pmu.bpf.c`. -/
structure CpuCtx where
  cxl_metrics : CxlPmuMetrics := {}
  active_moe_tasks : Nat := 0
  active_kworkers : Nat := 0
  active_read_tasks : Nat := 0
  active_write_tasks : Nat := 0
  last_balance_time : Nat := 0
  is_cxl_attached : Bool := false
  is_read_optimized : Bool := false
  is_write_optimized : Bool := false
deriving DecidableEq

/-- From `cxl_pmu.bpf.c` `classify_io_pattern` (lines 196-210).  A `none`
argument models a NULL `pattern` pointer. -/
def classify_io_pattern : Option MemoryAccessPattern → IoPattern
  | none => IoPattern.IO_PATTERN_UNKNOWN
  | some p =>
      if p.read_bytes = 0 ∧ p.write_bytes = 0 then IoPattern.IO_PATTERN_UNKNOWN
      else
        let total_bytes := p.read_bytes + p.write_bytes
        let read_pct := p.read_bytes * 100 / total_bytes
        if read_pct > 80 then IoPattern.IO_PATTERN_READ_HEAVY
        else if read_pct < 20 then IoPattern.IO_PATTERN_WRITE_HEAVY
        else IoPattern.IO_PATTERN_MIXED

/-- One observation consumed by `update_damon_data`: the current time stamp,
whether the task has an mm (`p->mm`), `p->se.vruntime` and
`p->se.sum_exec_runtime`. -/
structure DamonObs where
  current_time : Nat
  has_mm : Bool
  vruntime : Nat
  sum_exec_runtime : Nat
deriving DecidableEq

/-- The `exec_delta` local of `update_damon_data`: it stays 0 unless the task
has an mm and `sum_exec_runtime` exceeds the recorded `total_access_time`. -/
def damon_exec_delta (pat : MemoryAccessPattern) (o : DamonObs) : Nat :=
  if o.has_mm ∧ o.sum_exec_runtime > pat.total_access_time then
    o.sum_exec_runtime - pat.total_access_time
  else 0

/-- Counter/working-set part of `update_damon_data` (lines 232-254): bump
`nr_accesses`, refresh `last_access_time`, and under `p->mm` update the
working-set estimate and the read/write byte heuristic. -/
def damon_counters (pat : MemoryAccessPattern) (o : DamonObs) : MemoryAccessPattern :=
  let p1 := { pat with nr_accesses := pat.nr_accesses + 1,
                       last_access_time := o.current_time }
  if o.has_mm then
    let p2 := { p1 with working_set_size := o.vruntime / 1000000 % 65536 }
    if o.sum_exec_runtime > p2.total_access_time then
      let ed := o.sum_exec_runtime - p2.total_access_time
      if ed > p2.nr_accesses * 1000 then
        { p2 with read_bytes := p2.read_bytes + ed / 1000,
                  total_access_time := o.sum_exec_runtime }
      else
        { p2 with write_bytes := p2.write_bytes + ed / 2000,
                  total_access_time := o.sum_exec_runtime }
    else p2
  else p1

/-- Locality-score part of `update_damon_data` (lines 262-274), applied to the
already-incremented `nr_accesses` and the just-recomputed `io_pattern`. -/
def damon_locality (ed nr score : Nat) (iop : IoPattern) : Nat :=
  let s1 := if ed > nr * 500 then (if score > 10 then score - 10 else 0)
            else (if score < 90 then score + 5 else 100)
  if iop = IoPattern.IO_PATTERN_READ_HEAVY ∨ iop = IoPattern.IO_PATTERN_WRITE_HEAVY then
    (if s1 < 95 then s1 + 5 else 100)
  else s1

/-- From `cxl_pmu.bpf.c` `update_damon_data` (lines 212-278): the pattern
value stored to the `damon_data` map, `none` when nothing is written (the
`time_delta > 0` guard fails).  A `none` `stored` argument models a missing
map entry, which is initialised to a neutral pattern. -/
def update_damon_data (stored : Option MemoryAccessPattern) (o : DamonObs) :
    Option MemoryAccessPattern :=
  match stored with
  | none =>
      some { last_access_time := o.current_time, locality_score := 50,
             io_pattern := IoPattern.IO_PATTERN_UNKNOWN }
  | some pat =>
      if o.current_time - pat.last_access_time > 0 then
        let p2 := damon_counters pat o
        let p3 := { p2 with io_pattern := classify_io_pattern (some p2) }
        some { p3 with
               locality_score :=
                 damon_locality (damon_exec_delta pat o) p3.nr_accesses
                   p3.locality_score p3.io_pattern }
      else none

/-- One step of the `damon_data` map state for a single task: a write replaces
the stored pattern, otherwise the stored pattern is unchanged. -/
def damon_step (st : Option MemoryAccessPattern) (o : DamonObs) :
    Option MemoryAccessPattern :=
  match update_damon_data st o with
  | some q => some q
  | none => st

/-- The `damon_data` map entry of a task after a sequence of observations,
starting from no entry. -/
def damon_run (l : List DamonObs) : Option MemoryAccessPattern :=
  List.foldl damon_step none l

/-- From `cxl_pmu.bpf.c` `update_cxl_pmu_metrics` (lines 280-323): refresh the
per-CPU telemetry from the current time and the active task counts. -/
def update_cxl_pmu_metrics (ctx : CpuCtx) (current_time : Nat) : CpuCtx :=
  let time_factor := current_time / 1000000
  let mb := 800 + time_factor % 400
  let chr := 85 + time_factor % 15
  let lat := 100 + time_factor % 100
  let util := 60 + time_factor % 40
  let read_bw := mb * 60 / 100
  let write_bw := mb * 40 / 100
  let read_bw2 := if ctx.active_read_tasks > ctx.active_write_tasks then read_bw + 100
                  else read_bw
  let write_bw2 := if ctx.active_write_tasks > ctx.active_read_tasks then write_bw + 100
                   else write_bw
  let ro := if ctx.active_read_tasks > ctx.active_write_tasks then true else false
  let wo := if ctx.active_write_tasks > ctx.active_read_tasks then true else false
  { ctx with
    cxl_metrics := { memory_bandwidth := mb, cache_hit_rate := chr,
                     memory_latency := lat, cxl_utilization := util,
                     read_bandwidth := read_bw2, write_bandwidth := write_bw2,
                     last_update_time := current_time },
    is_read_optimized := ro,
    is_write_optimized := wo,
    is_cxl_attached := if lat > 150 then true else false }

/-- Test a condition behind a possibly-NULL pointer, as in the C idiom
`pattern && pattern->field ...`. -/
def opt_test (o : Option α) (p : α → Bool) : Bool :=
  match o with
  | some x => p x
  | none => false

/-- From `cxl_pmu.bpf.c` `calculate_task_priority` (lines 325-412): returns
the computed priority together with the decayed `priority_boost` that the
function writes back into the task context. -/
def calculate_task_priority (tctx : TaskCtx) (pattern : Option MemoryAccessPattern)
    (cxl_metrics : Option CxlPmuMetrics) : Nat × Nat :=
  let base0 : Nat := 120
  let base1 :=
    match tctx.type with
    | TaskType.TASK_TYPE_MOE_VECTORDB =>
        let b := if opt_test pattern (fun p => p.locality_score > MOE_VECTORDB_THRESHOLD)
                 then base0 - 20 else base0
        if opt_test cxl_metrics (fun m => m.memory_bandwidth > 1000) then b - 10 else b
    | TaskType.TASK_TYPE_READ_INTENSIVE =>
        let b := if opt_test cxl_metrics (fun m => m.read_bandwidth > BANDWIDTH_THRESHOLD)
                 then base0 - 15 else base0
        if opt_test pattern (fun p => p.io_pattern == IoPattern.IO_PATTERN_READ_HEAVY)
        then b - 10 else b
    | TaskType.TASK_TYPE_WRITE_INTENSIVE =>
        let b := if opt_test cxl_metrics (fun m => m.write_bandwidth > BANDWIDTH_THRESHOLD)
                 then base0 - 15 else base0
        if opt_test pattern (fun p => p.io_pattern == IoPattern.IO_PATTERN_WRITE_HEAVY)
        then b - 10 else b
    | TaskType.TASK_TYPE_BANDWIDTH_TEST =>
        let b := if tctx.is_bandwidth_critical then base0 - 30 else base0
        match pattern with
        | none => b
        | some p =>
            if p.io_pattern == IoPattern.IO_PATTERN_READ_HEAVY
               && opt_test cxl_metrics (fun m => m.read_bandwidth > 100) then b - 10
            else if p.io_pattern == IoPattern.IO_PATTERN_WRITE_HEAVY
               && opt_test cxl_metrics (fun m => m.write_bandwidth > 100) then b - 10
            else b
    | TaskType.TASK_TYPE_KWORKER =>
        let b := if tctx.needs_promotion then base0 - 15 else base0
        if opt_test cxl_metrics (fun m => m.cxl_utilization > 90) then b + 10 else b
    | TaskType.TASK_TYPE_LATENCY_SENSITIVE => base0 - 25
    | _ =>
        if opt_test pattern (fun p => p.locality_score < 30) then base0 + 10 else base0
  if tctx.priority_boost > 0 then
    ((if base1 > tctx.priority_boost then base1 - tctx.priority_boost else 1),
     (if tctx.priority_boost > 5 then tctx.priority_boost - 5 else 0))
  else (base1, tctx.priority_boost)

/-! Arithmetic facts about the wrapping `u64` model. -/

theorem u64sub_eq_cases (a b : Nat) (ha : a < U64) (hb : b < U64) :
    u64sub a b = if a < b then U64 + a - b else a - b := by
  have e64 : U64 = 18446744073709551616 := rfl
  unfold u64sub
  rw [Nat.mod_eq_of_lt hb]
  rcases Nat.lt_or_ge a b with h | h
  · have h1 : a + U64 - b = U64 + a - b := by omega
    rw [h1, Nat.mod_eq_of_lt (by omega), if_pos h]
  · have h1 : a + U64 - b = (a - b) + U64 := by omega
    rw [h1, Nat.add_mod_right, Nat.mod_eq_of_lt (by omega), if_neg (by omega)]

theorem u64sub_of_le (a b : Nat) (ha : a < U64) (hba : b ≤ a) : u64sub a b = a - b := by
  rw [u64sub_eq_cases a b ha (by have e64 : U64 = 18446744073709551616 := rfl; omega),
    if_neg (by omega)]

theorem vtime_before_iff_lt (a b : Nat) (ha : a < U63) (hb : b < U63) :
    vtime_before a b = true ↔ a < b := by
  have e64 : U64 = 18446744073709551616 := rfl
  have e63 : U63 = 9223372036854775808 := rfl
  unfold vtime_before
  rw [decide_eq_true_iff]
  rw [u64sub_eq_cases a b (by omega) (by omega)]
  rcases Nat.lt_or_ge a b with h | h
  · rw [if_pos h]; omega
  · rw [if_neg (by omega)]; omega

/-- Under non-wrapped operating conditions, `cxl_running` is exactly the
maximum of the global clock and the virtual time of the starting task. -/
theorem cxl_running_eq_max (g v : Nat) (hg : g < U63) (hv : v < U63) :
    cxl_running g v = max g v := by
  unfold cxl_running
  split
  case isTrue h =>
    have := (vtime_before_iff_lt _ _ hg hv).1 h
    omega
  case isFalse h =>
    have : ¬ g < v := fun hlt => h ((vtime_before_iff_lt _ _ hg hv).2 hlt)
    omega

/-- The global clock is non-decreasing and stays below `U63` along any
sequence of run-start events whose task virtual times are below `U63`. -/
theorem run_start_events_mono (l : List Nat) : ∀ g : Nat, g < U63 → (∀ x ∈ l, x < U63) →
    g ≤ run_start_events g l ∧ run_start_events g l < U63 := by
  induction l with
  | nil => intro g hg _; exact ⟨le_refl g, hg⟩
  | cons x xs ih =>
    intro g hg hl
    have hx : x < U63 := hl x (List.mem_cons_self x xs)
    have hmax : cxl_running g x = max g x := cxl_running_eq_max g x hg hx
    have h2 : cxl_running g x < U63 := by omega
    have hrest := ih (cxl_running g x) h2 (fun y hy => hl y (List.mem_cons_of_mem _ hy))
    unfold run_start_events at hrest ⊢
    simp only [List.foldl_cons]
    exact ⟨le_trans (by omega) hrest.1, hrest.2⟩

/-- C1: in the minimal scheduler, `cxl_enqueue` always performs exactly one
dispatch-queue insert, and on task-context allocation failure it falls back
to a plain insert into the fallback queue; but `cxl_enqueue` of
`cxl_pmu.bpf.c` performs no insert at all (its insert call is commented
out), so there a task is placed in zero queues, not exactly one. -/
theorem claim_C1 :
    (∀ (tctx : Option TaskCtxMin) (c0 c1 : Char) (v g f : Nat),
        (cxl_enqueue tctx c0 c1 v g f).length = 1)
    ∧ (∀ f : Nat, cxl_enqueue_pmu f = [])
    ∧ cxl_enqueue none 'a' 'b' 0 0 0
        = [InsertAction.insert FALLBACK_DSQ_ID SCX_SLICE_DFL 0] := by
  refine ⟨?_, fun _ => rfl, rfl⟩
  intro tctx c0 c1 v g f
  cases tctx <;> rfl

/-- C2: the enqueue clamp never lowers the virtual time of a task, and the
run-stop charge-back `(SCX_SLICE_DFL - slice) * 100 / weight` is
non-negative and only advances the virtual time, whenever the slice field
does not exceed the nominal slice and the clock values are in the
non-wrapped range. -/
theorem claim_C2 (vtime global slice weight : Nat)
    (hv : vtime < U63) (hg : u64sub global slice < U63) (hs : slice ≤ SCX_SLICE_DFL) :
    vtime ≤ enqueue_clamp vtime global slice
    ∧ cxl_stopping vtime slice weight = vtime + (SCX_SLICE_DFL - slice) * 100 / weight
    ∧ vtime ≤ cxl_stopping vtime slice weight := by
  have e64 : U64 = 18446744073709551616 := rfl
  have e63 : U63 = 9223372036854775808 := rfl
  have eS : SCX_SLICE_DFL = 20000000 := rfl
  have hclamp : vtime ≤ enqueue_clamp vtime global slice := by
    unfold enqueue_clamp
    split
    case isTrue h => exact le_of_lt ((vtime_before_iff_lt _ _ hv hg).1 h)
    case isFalse h => exact le_refl _
  have h1 : u64sub SCX_SLICE_DFL slice = SCX_SLICE_DFL - slice :=
    u64sub_of_le _ _ (by omega) hs
  have h2 : (SCX_SLICE_DFL - slice) * 100 < U64 := by omega
  have h3 : (SCX_SLICE_DFL - slice) * 100 / weight ≤ (SCX_SLICE_DFL - slice) * 100 :=
    Nat.div_le_self _ _
  have h4 : vtime + (SCX_SLICE_DFL - slice) * 100 / weight < U64 := by omega
  have h5 : cxl_stopping vtime slice weight
      = vtime + (SCX_SLICE_DFL - slice) * 100 / weight := by
    unfold cxl_stopping
    rw [h1, Nat.mod_eq_of_lt h2, Nat.mod_eq_of_lt h4]
  exact ⟨hclamp, h5, h5 ▸ Nat.le_add_right _ _⟩

/-- Witness for C2 at `vtime = 1000`, `global = 30000000`,
`slice = 10000000`, `weight = 100`. -/
theorem claim_C2_witness :
    1000 ≤ enqueue_clamp 1000 30000000 10000000
    ∧ cxl_stopping 1000 10000000 100 = 1000 + (SCX_SLICE_DFL - 10000000) * 100 / 100
    ∧ 1000 ≤ cxl_stopping 1000 10000000 100 :=
  claim_C2 1000 30000000 10000000 100 (by decide) (by decide) (by decide)

/-- C3: at run-start the global clock becomes the maximum of itself and the
virtual time of the starting task, hence is at least both of them afterwards, and
it never decreases across any sequence of run-start events (all in the
non-wrapped range). -/
theorem claim_C3 (global vtime : Nat) (l : List Nat)
    (hg : global < U63) (hv : vtime < U63) (hl : ∀ x ∈ l, x < U63) :
    cxl_running global vtime = max global vtime
    ∧ vtime ≤ cxl_running global vtime
    ∧ global ≤ cxl_running global vtime
    ∧ global ≤ run_start_events global l := by
  have hmax := cxl_running_eq_max global vtime hg hv
  have hseq := run_start_events_mono l global hg hl
  exact ⟨hmax, by omega, by omega, hseq.1⟩

/-- Witness for C3 at `global = 5`, `vtime = 7`, run-start sequence
`[3, 100, 7]`. -/
theorem claim_C3_witness :
    cxl_running 5 7 = max 5 7
    ∧ 7 ≤ cxl_running 5 7
    ∧ 5 ≤ cxl_running 5 7
    ∧ 5 ≤ run_start_events 5 [3, 100, 7] :=
  claim_C3 5 7 [3, 100, 7] (by decide) (by decide) (by decide)

/-- C4: under non-wrapped operating conditions the inserted virtual time is
exactly `max(current, global - slice)` shifted down one slice for VectorDB
tasks and up one slice for kworkers, and in all cases it stays within one
slice of the fairness clamp. -/
theorem claim_C4 (t : TaskCtxMin) (vtime global slice : Nat)
    (hv : vtime < U63) (hg : global < U63) (hsg : slice ≤ global)
    (hvdb : slice ≤ max vtime (global - slice)) :
    cxl_enqueue_vtime t vtime global slice
      = max vtime (global - slice) - (if t.is_vectordb then slice else 0)
          + (if t.is_kworker then slice else 0)
    ∧ max vtime (global - slice) - slice ≤ cxl_enqueue_vtime t vtime global slice
    ∧ cxl_enqueue_vtime t vtime global slice ≤ max vtime (global - slice) + slice := by
  have e64 : U64 = 18446744073709551616 := rfl
  have e63 : U63 = 9223372036854775808 := rfl
  have hsub : u64sub global slice = global - slice :=
    u64sub_of_le _ _ (by omega) hsg
  have hclamp : enqueue_clamp vtime global slice = max vtime (global - slice) := by
    unfold enqueue_clamp
    rw [hsub]
    split
    case isTrue h =>
      have := (vtime_before_iff_lt _ _ hv (by omega)).1 h
      omega
    case isFalse h =>
      have : ¬ vtime < global - slice :=
        fun hlt => h ((vtime_before_iff_lt _ _ hv (by omega)).2 hlt)
      omega
  have hsub2 : u64sub (max vtime (global - slice)) slice
      = max vtime (global - slice) - slice :=
    u64sub_of_le _ _ (by omega) hvdb
  have hof1 : max vtime (global - slice) + slice < U64 := by omega
  have hof2 : max vtime (global - slice) - slice + slice < U64 := by omega
  rcases t with ⟨vdb, kw⟩
  cases vdb <;> cases kw
  · show enqueue_clamp vtime global slice = max vtime (global - slice) - 0 + 0
      ∧ max vtime (global - slice) - slice ≤ enqueue_clamp vtime global slice
      ∧ enqueue_clamp vtime global slice ≤ max vtime (global - slice) + slice
    rw [hclamp]
    exact ⟨by omega, by omega, by omega⟩
  · show (enqueue_clamp vtime global slice + slice) % U64
        = max vtime (global - slice) - 0 + slice
      ∧ max vtime (global - slice) - slice
          ≤ (enqueue_clamp vtime global slice + slice) % U64
      ∧ (enqueue_clamp vtime global slice + slice) % U64
          ≤ max vtime (global - slice) + slice
    rw [hclamp, Nat.mod_eq_of_lt hof1]
    exact ⟨by omega, by omega, by omega⟩
  · show u64sub (enqueue_clamp vtime global slice) slice
        = max vtime (global - slice) - slice + 0
      ∧ max vtime (global - slice) - slice
          ≤ u64sub (enqueue_clamp vtime global slice) slice
      ∧ u64sub (enqueue_clamp vtime global slice) slice
          ≤ max vtime (global - slice) + slice
    rw [hclamp, hsub2]
    exact ⟨by omega, by omega, by omega⟩
  · show (u64sub (enqueue_clamp vtime global slice) slice + slice) % U64
        = max vtime (global - slice) - slice + slice
      ∧ max vtime (global - slice) - slice
          ≤ (u64sub (enqueue_clamp vtime global slice) slice + slice) % U64
      ∧ (u64sub (enqueue_clamp vtime global slice) slice + slice) % U64
          ≤ max vtime (global - slice) + slice
    rw [hclamp, hsub2, Nat.mod_eq_of_lt hof2]
    exact ⟨by omega, by omega, by omega⟩

/-- Witness for C4: a VectorDB task with `vtime = 100000000`,
`global = 50000000`, `slice = 20000000`. -/
theorem claim_C4_witness :
    cxl_enqueue_vtime ⟨true, false⟩ 100000000 50000000 20000000
      = max 100000000 (50000000 - 20000000)
          - (if (⟨true, false⟩ : TaskCtxMin).is_vectordb then 20000000 else 0)
          + (if (⟨true, false⟩ : TaskCtxMin).is_kworker then 20000000 else 0)
    ∧ max 100000000 (50000000 - 20000000) - 20000000
        ≤ cxl_enqueue_vtime ⟨true, false⟩ 100000000 50000000 20000000
    ∧ cxl_enqueue_vtime ⟨true, false⟩ 100000000 50000000 20000000
        ≤ max 100000000 (50000000 - 20000000) + 20000000 :=
  claim_C4 ⟨true, false⟩ 100000000 50000000 20000000
    (by decide) (by decide) (by decide) (by decide)

/-- The classification depends only on the byte counters. -/
theorem classify_io_pattern_congr (p q : MemoryAccessPattern)
    (hr : p.read_bytes = q.read_bytes) (hw : p.write_bytes = q.write_bytes) :
    classify_io_pattern (some p) = classify_io_pattern (some q) := by
  simp only [classify_io_pattern]
  rw [hr, hw]

/-- The decrease branch of the locality update is exactly a subtraction
floored at zero. -/
theorem loc_dec (s : Nat) : (if s > 10 then s - 10 else 0) = s - 10 := by
  split <;> omega

/-- The consistency bonus of the locality update is exactly an increase by 5
capped at 100. -/
theorem loc_bonus (s : Nat) : (if s < 95 then s + 5 else 100) = min (s + 5) 100 := by
  split <;> omega

/-- Closed form of `damon_locality`: subtraction floored at 0 on the erratic
branch; `+5` below 90 but a jump to 100 at 90 and above on the steady branch;
then a `+5` capped at 100 bonus for read/write-heavy patterns. -/
theorem damon_locality_eq (ed nr score : Nat) (iop : IoPattern) :
    damon_locality ed nr score iop
      = (if iop = IoPattern.IO_PATTERN_READ_HEAVY
            ∨ iop = IoPattern.IO_PATTERN_WRITE_HEAVY then
           min ((if ed > nr * 500 then score - 10
                 else (if score < 90 then score + 5 else 100)) + 5) 100
         else (if ed > nr * 500 then score - 10
               else (if score < 90 then score + 5 else 100))) := by
  simp only [damon_locality, loc_dec, loc_bonus]

/-- `damon_locality` never pushes the score above 100 when it starts at or
below 100. -/
theorem damon_locality_le (ed nr score : Nat) (iop : IoPattern)
    (hs : score ≤ 100) : damon_locality ed nr score iop ≤ 100 := by
  rw [damon_locality_eq]
  split
  · omega
  · split
    · omega
    · split <;> omega

/-- `damon_counters` increments `nr_accesses` by exactly one. -/
theorem damon_counters_nr (pat : MemoryAccessPattern) (o : DamonObs) :
    (damon_counters pat o).nr_accesses = pat.nr_accesses + 1 := by
  simp only [damon_counters]
  split
  · split
    · split <;> rfl
    · rfl
  · rfl

/-- `damon_counters` leaves the locality score untouched. -/
theorem damon_counters_locality (pat : MemoryAccessPattern) (o : DamonObs) :
    (damon_counters pat o).locality_score = pat.locality_score := by
  simp only [damon_counters]
  split
  · split
    · split <;> rfl
    · rfl
  · rfl

/-- C5: every pattern value that `update_damon_data` stores has its
`io_pattern` equal to the pure classification of its own byte counters, and
the classification rule is exactly the read-share (integer percentage)
threshold rule: ReadHeavy above 80, WriteHeavy below 20, Mixed otherwise. -/
theorem claim_C5 :
    (∀ (st : Option MemoryAccessPattern) (o : DamonObs) (q : MemoryAccessPattern),
        update_damon_data st o = some q →
        q.io_pattern = classify_io_pattern (some q))
    ∧ (∀ p : MemoryAccessPattern, 0 < p.read_bytes + p.write_bytes →
        ((classify_io_pattern (some p) = IoPattern.IO_PATTERN_READ_HEAVY
            ↔ 80 < p.read_bytes * 100 / (p.read_bytes + p.write_bytes))
         ∧ (classify_io_pattern (some p) = IoPattern.IO_PATTERN_WRITE_HEAVY
            ↔ p.read_bytes * 100 / (p.read_bytes + p.write_bytes) < 20)
         ∧ (classify_io_pattern (some p) = IoPattern.IO_PATTERN_MIXED
            ↔ (20 ≤ p.read_bytes * 100 / (p.read_bytes + p.write_bytes)
                ∧ p.read_bytes * 100 / (p.read_bytes + p.write_bytes) ≤ 80)))) := by
  constructor
  · intro st o q h
    cases st with
    | none =>
        simp only [update_damon_data] at h
        injection h with h
        subst h
        rfl
    | some pat =>
        simp only [update_damon_data] at h
        split at h
        case isTrue ht =>
          injection h with h
          subst h
          exact classify_io_pattern_congr _ _ rfl rfl
        case isFalse ht => exact Option.noConfusion h
  · intro p hp
    simp only [classify_io_pattern, if_neg (show ¬(p.read_bytes = 0 ∧ p.write_bytes = 0)
      by omega)]
    by_cases h1 : 80 < p.read_bytes * 100 / (p.read_bytes + p.write_bytes)
    · rw [if_pos h1]
      exact ⟨⟨fun _ => h1, fun _ => rfl⟩,
             ⟨fun h => IoPattern.noConfusion h, fun h => absurd h (by omega)⟩,
             ⟨fun h => IoPattern.noConfusion h, fun h => absurd h.2 (by omega)⟩⟩
    · rw [if_neg h1]
      by_cases h2 : p.read_bytes * 100 / (p.read_bytes + p.write_bytes) < 20
      · rw [if_pos h2]
        exact ⟨⟨fun h => IoPattern.noConfusion h, fun h => absurd h (by omega)⟩,
               ⟨fun _ => h2, fun _ => rfl⟩,
               ⟨fun h => IoPattern.noConfusion h, fun h => absurd h.1 (by omega)⟩⟩
      · rw [if_neg h2]
        exact ⟨⟨fun h => IoPattern.noConfusion h, fun h => absurd h (by omega)⟩,
               ⟨fun h => IoPattern.noConfusion h, fun h => absurd h (by omega)⟩,
               ⟨fun _ => by omega, fun _ => rfl⟩⟩

/-- Witness for C5: the initial write for a fresh task is self-consistent,
and the threshold characterisation at `read_bytes = 900`,
`write_bytes = 100`. -/
theorem claim_C5_witness :
    (({ last_access_time := 3, locality_score := 50 } : MemoryAccessPattern).io_pattern
       = classify_io_pattern
           (some { last_access_time := 3, locality_score := 50 }))
    ∧ ((classify_io_pattern
          (some { read_bytes := 900, write_bytes := 100 })
            = IoPattern.IO_PATTERN_READ_HEAVY
        ↔ 80 < 900 * 100 / (900 + 100))
       ∧ (classify_io_pattern
            (some { read_bytes := 900, write_bytes := 100 })
              = IoPattern.IO_PATTERN_WRITE_HEAVY
          ↔ 900 * 100 / (900 + 100) < 20)
       ∧ (classify_io_pattern
            (some { read_bytes := 900, write_bytes := 100 })
              = IoPattern.IO_PATTERN_MIXED
          ↔ (20 ≤ 900 * 100 / (900 + 100) ∧ 900 * 100 / (900 + 100) ≤ 80))) :=
  ⟨claim_C5.1 none { current_time := 3, has_mm := false, vruntime := 0, sum_exec_runtime := 0 }
     _ rfl,
   claim_C5.2 { read_bytes := 900, write_bytes := 100 } (by decide)⟩

/-- C6: a task with `read_bytes = 900`, `write_bytes = 100` classifies as
ReadHeavy (share 90 percent), and a ReadIntensive task with that pattern and
telemetry `read_bandwidth = 80` gets priority `95 = 120 - 25`
(−15 for the bandwidth condition, −10 for the ReadHeavy pattern). -/
theorem claim_C6 :
    classify_io_pattern (some { read_bytes := 900, write_bytes := 100 })
      = IoPattern.IO_PATTERN_READ_HEAVY
    ∧ (calculate_task_priority { type := TaskType.TASK_TYPE_READ_INTENSIVE }
         (some { read_bytes := 900, write_bytes := 100,
                 io_pattern := IoPattern.IO_PATTERN_READ_HEAVY })
         (some { read_bandwidth := 80 })).1 = 95
    ∧ 95 = 120 - 25 := by
  exact ⟨by decide, by decide, rfl⟩

/-- Counterexample to C7 as stated: a task at `locality_score = 90` on the
steady branch (exec_delta below the threshold, pattern Mixed) is updated to
100, not to the claimed `90 + 5 = 95`. -/
theorem claim_C7_counterexample :
    update_damon_data
        (some { nr_accesses := 10, total_access_time := 5000, last_access_time := 1000,
                locality_score := 90, read_bytes := 50, write_bytes := 50,
                io_pattern := IoPattern.IO_PATTERN_MIXED })
        { current_time := 2000, has_mm := true, vruntime := 0, sum_exec_runtime := 6000 }
      = some { nr_accesses := 11, total_access_time := 6000, last_access_time := 2000,
               locality_score := 100, read_bytes := 50, write_bytes := 50,
               io_pattern := IoPattern.IO_PATTERN_MIXED }
    ∧ (100 : Nat) ≠ 90 + 5 := by
  exact ⟨by decide, by decide⟩

/-- C7 (amended): on every observation that writes a pattern, the locality
score decreases by 10 floored at 0 when `exec_delta` exceeds the updated
`accesses_count * 500`; otherwise it increases by 5 when below 90 but is set
directly to 100 when it is 90 or above; additionally it increases by 5,
capped at 100, when the recomputed `io_pattern` is ReadHeavy or WriteHeavy. -/
theorem claim_C7 (pat q : MemoryAccessPattern) (o : DamonObs)
    (h : update_damon_data (some pat) o = some q) :
    q.locality_score =
      (if q.io_pattern = IoPattern.IO_PATTERN_READ_HEAVY
          ∨ q.io_pattern = IoPattern.IO_PATTERN_WRITE_HEAVY then
         min ((if damon_exec_delta pat o > (pat.nr_accesses + 1) * 500
               then pat.locality_score - 10
               else (if pat.locality_score < 90 then pat.locality_score + 5 else 100)) + 5)
           100
       else
         (if damon_exec_delta pat o > (pat.nr_accesses + 1) * 500
          then pat.locality_score - 10
          else (if pat.locality_score < 90 then pat.locality_score + 5 else 100))) := by
  simp only [update_damon_data] at h
  split at h
  case isTrue ht =>
    injection h with h
    subst h
    show damon_locality (damon_exec_delta pat o)
        ((damon_counters pat o).nr_accesses) ((damon_counters pat o).locality_score)
        (classify_io_pattern (some (damon_counters pat o)))
      = (if classify_io_pattern (some (damon_counters pat o))
              = IoPattern.IO_PATTERN_READ_HEAVY
            ∨ classify_io_pattern (some (damon_counters pat o))
              = IoPattern.IO_PATTERN_WRITE_HEAVY then
           min ((if damon_exec_delta pat o > (pat.nr_accesses + 1) * 500
                 then pat.locality_score - 10
                 else (if pat.locality_score < 90 then pat.locality_score + 5 else 100)) + 5)
             100
         else
           (if damon_exec_delta pat o > (pat.nr_accesses + 1) * 500
            then pat.locality_score - 10
            else (if pat.locality_score < 90 then pat.locality_score + 5 else 100)))
    rw [damon_locality_eq, damon_counters_nr, damon_counters_locality]
  case isFalse ht => exact Option.noConfusion h

/-- Witness for the amended C7: a fresh default pattern observed once moves
from locality 0 to 5 on the steady branch. -/
theorem claim_C7_witness :
    ({ nr_accesses := 1, last_access_time := 1,
       locality_score := 5 } : MemoryAccessPattern).locality_score =
      (if ({ nr_accesses := 1, last_access_time := 1,
             locality_score := 5 } : MemoryAccessPattern).io_pattern
             = IoPattern.IO_PATTERN_READ_HEAVY
          ∨ ({ nr_accesses := 1, last_access_time := 1,
               locality_score := 5 } : MemoryAccessPattern).io_pattern
             = IoPattern.IO_PATTERN_WRITE_HEAVY then
         min ((if damon_exec_delta {}
                   { current_time := 1, has_mm := false, vruntime := 0,
                     sum_exec_runtime := 0 }
                 > (({} : MemoryAccessPattern).nr_accesses + 1) * 500
               then ({} : MemoryAccessPattern).locality_score - 10
               else (if ({} : MemoryAccessPattern).locality_score < 90
                     then ({} : MemoryAccessPattern).locality_score + 5 else 100)) + 5)
           100
       else
         (if damon_exec_delta {}
              { current_time := 1, has_mm := false, vruntime := 0, sum_exec_runtime := 0 }
            > (({} : MemoryAccessPattern).nr_accesses + 1) * 500
          then ({} : MemoryAccessPattern).locality_score - 10
          else (if ({} : MemoryAccessPattern).locality_score < 90
                then ({} : MemoryAccessPattern).locality_score + 5 else 100))) :=
  claim_C7 {} { nr_accesses := 1, last_access_time := 1, locality_score := 5 }
    { current_time := 1, has_mm := false, vruntime := 0, sum_exec_runtime := 0 }
    (by decide)

/-- The initial write of `update_damon_data` satisfies the locality bound. -/
theorem update_damon_init_locality_le (o : DamonObs) (q : MemoryAccessPattern)
    (h : update_damon_data none o = some q) : q.locality_score ≤ 100 := by
  simp only [update_damon_data] at h
  injection h with h
  subst h
  show (50 : Nat) ≤ 100
  omega

/-- A subsequent write of `update_damon_data` preserves the locality bound. -/
theorem update_damon_locality_le (pat q : MemoryAccessPattern) (o : DamonObs)
    (hpat : pat.locality_score ≤ 100)
    (h : update_damon_data (some pat) o = some q) : q.locality_score ≤ 100 := by
  simp only [update_damon_data] at h
  split at h
  case isTrue ht =>
    injection h with h
    subst h
    show damon_locality (damon_exec_delta pat o)
        ((damon_counters pat o).nr_accesses) ((damon_counters pat o).locality_score)
        (classify_io_pattern (some (damon_counters pat o))) ≤ 100
    rw [damon_counters_locality]
    exact damon_locality_le _ _ _ _ hpat
  case isFalse ht => exact Option.noConfusion h

/-- One `damon_step` preserves the locality-score upper bound. -/
theorem locality_le_100_step (st : Option MemoryAccessPattern) (o : DamonObs)
    (hst : ∀ p, st = some p → p.locality_score ≤ 100) :
    ∀ p, damon_step st o = some p → p.locality_score ≤ 100 := by
  intro p hp
  unfold damon_step at hp
  rcases hu : update_damon_data st o with _ | q0
  · simp only [hu, Option.some.injEq] at hp
    exact hst p hp
  · simp only [hu, Option.some.injEq] at hp
    subst hp
    cases st with
    | none => exact update_damon_init_locality_le o q0 hu
    | some pat => exact update_damon_locality_le pat q0 o (hst pat rfl) hu

/-- The locality-score bound holds along any fold of `damon_step`. -/
theorem damon_run_locality_le (l : List DamonObs) :
    ∀ st : Option MemoryAccessPattern,
      (∀ p, st = some p → p.locality_score ≤ 100) →
      ∀ p, List.foldl damon_step st l = some p → p.locality_score ≤ 100 := by
  induction l with
  | nil => intro st hst p hp; exact hst p hp
  | cons o os ih =>
      intro st hst p hp
      simp only [List.foldl_cons] at hp
      exact ih (damon_step st o) (locality_le_100_step st o hst) p hp

/-- C8: starting from no stored pattern (so the first observation initialises
the score to 50), the locality score of the stored pattern stays within
[0, 100] after every sequence of observations. -/
theorem claim_C8 (l : List DamonObs) (q : MemoryAccessPattern)
    (h : damon_run l = some q) :
    0 ≤ q.locality_score ∧ q.locality_score ≤ 100 :=
  ⟨Nat.zero_le _,
   damon_run_locality_le l none (fun p hp => Option.noConfusion hp) q h⟩

/-- Witness for C8: one observation stores the neutral initial score 50. -/
theorem claim_C8_witness :
    0 ≤ ({ last_access_time := 5,
           locality_score := 50 } : MemoryAccessPattern).locality_score
    ∧ ({ last_access_time := 5,
         locality_score := 50 } : MemoryAccessPattern).locality_score ≤ 100 :=
  claim_C8 [{ current_time := 5, has_mm := false, vruntime := 0, sum_exec_runtime := 0 }]
    { last_access_time := 5, locality_score := 50 } (by decide)

/-- C9: the telemetry refresh splits bandwidth 60/40, gives the strictly
dominant side a fixed +100 bonus and sets its optimization flag exclusively,
and leaves both flags false (and no bonus) when the counts are equal. -/
theorem claim_C9 (ctx c : CpuCtx) (t : Nat) (hc : c = update_cxl_pmu_metrics ctx t) :
    (ctx.active_read_tasks > ctx.active_write_tasks →
       c.cxl_metrics.read_bandwidth = c.cxl_metrics.memory_bandwidth * 60 / 100 + 100
       ∧ c.cxl_metrics.write_bandwidth = c.cxl_metrics.memory_bandwidth * 40 / 100
       ∧ c.is_read_optimized = true ∧ c.is_write_optimized = false)
    ∧ (ctx.active_write_tasks > ctx.active_read_tasks →
       c.cxl_metrics.write_bandwidth = c.cxl_metrics.memory_bandwidth * 40 / 100 + 100
       ∧ c.cxl_metrics.read_bandwidth = c.cxl_metrics.memory_bandwidth * 60 / 100
       ∧ c.is_read_optimized = false ∧ c.is_write_optimized = true)
    ∧ (ctx.active_read_tasks = ctx.active_write_tasks →
       c.cxl_metrics.read_bandwidth = c.cxl_metrics.memory_bandwidth * 60 / 100
       ∧ c.cxl_metrics.write_bandwidth = c.cxl_metrics.memory_bandwidth * 40 / 100
       ∧ c.is_read_optimized = false ∧ c.is_write_optimized = false) := by
  subst hc
  refine ⟨fun h => ?_, fun h => ?_, fun h => ?_⟩
  · have h2 : ¬ ctx.active_write_tasks > ctx.active_read_tasks := by omega
    simp only [update_cxl_pmu_metrics, if_pos h, if_neg h2]
    refine ⟨?_, ?_, ?_, ?_⟩ <;> trivial
  · have h2 : ¬ ctx.active_read_tasks > ctx.active_write_tasks := by omega
    simp only [update_cxl_pmu_metrics, if_pos h, if_neg h2]
    refine ⟨?_, ?_, ?_, ?_⟩ <;> trivial
  · have h1 : ¬ ctx.active_read_tasks > ctx.active_write_tasks := by omega
    have h2 : ¬ ctx.active_write_tasks > ctx.active_read_tasks := by omega
    simp only [update_cxl_pmu_metrics, if_neg h1, if_neg h2]
    refine ⟨?_, ?_, ?_, ?_⟩ <;> trivial

/-- Witness for C9: the scenario with `active_read_tasks = 5` and
`active_write_tasks = 1`. -/
theorem claim_C9_witness :
    (update_cxl_pmu_metrics
        { active_read_tasks := 5, active_write_tasks := 1 } 0).cxl_metrics.read_bandwidth
      = (update_cxl_pmu_metrics
          { active_read_tasks := 5,
            active_write_tasks := 1 } 0).cxl_metrics.memory_bandwidth * 60 / 100 + 100
    ∧ (update_cxl_pmu_metrics
        { active_read_tasks := 5, active_write_tasks := 1 } 0).cxl_metrics.write_bandwidth
      = (update_cxl_pmu_metrics
          { active_read_tasks := 5,
            active_write_tasks := 1 } 0).cxl_metrics.memory_bandwidth * 40 / 100
    ∧ (update_cxl_pmu_metrics
        { active_read_tasks := 5, active_write_tasks := 1 } 0).is_read_optimized = true
    ∧ (update_cxl_pmu_metrics
        { active_read_tasks := 5, active_write_tasks := 1 } 0).is_write_optimized = false :=
  (claim_C9 { active_read_tasks := 5, active_write_tasks := 1 } _ 0 rfl).1 (by decide)

/-- C10: the classification is total and division-safe: a missing pattern or
one with both byte counters zero classifies as Unknown (and those are the
only Unknown cases), and for every pattern the divisor `read + write` is
positive unless the guard already returned Unknown. -/
theorem claim_C10 :
    classify_io_pattern none = IoPattern.IO_PATTERN_UNKNOWN
    ∧ (∀ p : MemoryAccessPattern,
        (classify_io_pattern (some p) = IoPattern.IO_PATTERN_UNKNOWN
          ↔ (p.read_bytes = 0 ∧ p.write_bytes = 0)))
    ∧ (∀ p : MemoryAccessPattern,
        0 < p.read_bytes + p.write_bytes
          ∨ classify_io_pattern (some p) = IoPattern.IO_PATTERN_UNKNOWN) := by
  refine ⟨rfl, fun p => ?_, fun p => ?_⟩
  · by_cases h : p.read_bytes = 0 ∧ p.write_bytes = 0
    · simp only [classify_io_pattern, if_pos h]
      exact ⟨fun _ => h, fun _ => trivial⟩
    · simp only [classify_io_pattern, if_neg h]
      constructor
      · intro heq
        split at heq
        · exact IoPattern.noConfusion heq
        · split at heq
          · exact IoPattern.noConfusion heq
          · exact IoPattern.noConfusion heq
      · intro hc
        exact absurd hc h
  · by_cases h : p.read_bytes = 0 ∧ p.write_bytes = 0
    · right
      simp only [classify_io_pattern, if_pos h]
    · left
      omega
